import Mathlib

/-!
Verification of the request router / protocol bridge and the sequential
workflow engine of `00_master_mcp/mcp_host.py`, shallowly embedded in Lean.

Conventions of the embedding:
* Python JSON values are modelled by `JVal`; Python dicts by the association
  list type `JObj` (first binding wins on lookup, keys are unique in values
  produced by `json.loads`, but the model does not assume it).
* Effects are made explicit: the HTTP transport is a function from the
  request the code would POST to the outcome of that POST, and the two
  `uuid.uuid4()` calls per tool call are supplied as parameters.  The list
  of requests actually issued is returned alongside each result, so that
  `no network attempt` is the statement that this list is empty.
* Each `return` site of `MCPServiceClient.call_tool` becomes one
  constructor of `ToolResult`; of the Python dicts they build, all carry
  `status = "error"` except `success`, which carries `status = "success"`.
* Python string methods used by the code (`str.replace`, `str.rstrip`,
  `str.endswith`) are re-implemented over character lists so that every
  definition evaluates inside the kernel.
-/

namespace MCPHost

/-- True when the character list `p` starts the list `l`. -/
def isPrefixL : List Char → List Char → Bool
  | [], _ => true
  | _ :: _, [] => false
  | p :: ps, c :: cs => p = c && isPrefixL ps cs

/-- Drop the first `n` elements of a character list. -/
def dropN : Nat → List Char → List Char
  | 0, l => l
  | _ + 1, [] => []
  | k + 1, _ :: rest => dropN k rest

/-- Fuel-driven worker for `pyReplace`: scan left to right, replacing each
non-overlapping occurrence of `pat` by `rep`, exactly as Python
`str.replace` does.  The fuel is the length of the scanned list; each step
consumes at least one character, so the fuel never runs out in `pyReplace`. -/
def replaceFuel (pat rep : List Char) : Nat → List Char → List Char
  | 0, l => l
  | _ + 1, [] => []
  | fuel + 1, c :: rest =>
    if isPrefixL pat (c :: rest) then
      rep ++ replaceFuel pat rep fuel (dropN pat.length (c :: rest))
    else c :: replaceFuel pat rep fuel rest

/-- Python `s.replace(pat, rep)` for a non-empty pattern (the code only ever
replaces the pattern "/sse"); an empty pattern is returned unchanged. -/
def pyReplace (s pat rep : String) : String :=
  if pat = "" then s else ⟨replaceFuel pat.data rep.data s.data.length s.data⟩

/-- Python `s.rstrip(c)`: remove every trailing occurrence of `c`. -/
def pyRstrip (s : String) (c : Char) : String :=
  ⟨(s.data.reverse.dropWhile (· = c)).reverse⟩

/-- Python `s.endswith(t)`. -/
def pyEndsWith (s t : String) : Bool :=
  isPrefixL t.data.reverse s.data.reverse

mutual
/-- A JSON value, as produced by `response.json()`. -/
inductive JVal where
  | null : JVal
  | b (v : Bool) : JVal
  | n (v : Int) : JVal
  | s (v : String) : JVal
  | arr (elems : JArr) : JVal
  | obj (fields : JObj) : JVal
deriving DecidableEq, Repr

/-- A JSON array. -/
inductive JArr where
  | nil : JArr
  | cons (hd : JVal) (tl : JArr) : JArr
deriving DecidableEq, Repr

/-- A JSON object / Python dict, as an association list. -/
inductive JObj where
  | nil : JObj
  | cons (key : String) (val : JVal) (tl : JObj) : JObj
deriving DecidableEq, Repr
end

/-- Python `d.get(k)` on a dict: `none` models the key being absent. -/
def jLookup : JObj → String → Option JVal
  | .nil, _ => none
  | .cons k2 v rest, k => if k2 = k then some v else jLookup rest k

/-- Python `k in d` for a dict. -/
def jHasKey (fields : JObj) (k : String) : Bool :=
  (jLookup fields k).isSome

/-- Python `d.get(k)` where an absent key yields `None` (JSON null). -/
def jGetD (fields : JObj) (k : String) : JVal :=
  (jLookup fields k).getD .null

/-- Python truthiness of a JSON value (used by `if correlation_id:`):
`None`, `False`, `0`, the empty string, the empty list and the empty dict
are falsy, everything else is truthy. -/
def jTruthy : JVal → Bool
  | .null => false
  | .b v => v
  | .n v => v != 0
  | .s v => v != ""
  | .arr .nil => false
  | .arr (.cons _ _) => true
  | .obj .nil => false
  | .obj (.cons _ _ _) => true

/-- The `SERVICES` registry of `mcp_host.py`: a fixed namespace-to-URL map.
The port of each URL comes from the environment variables `MCP_PORT_01` to
`MCP_PORT_05`; the model uses the defaults `8001` to `8005` hard-coded in
the same line of the source. -/
def SERVICES : List (String × String) :=
  [("docs", "http://01_documentation_mcp:8001/sse"),
   ("cmdb", "http://02_cmdb_mcp:8002/sse"),
   ("secrets", "http://03_secrets_mcp:8003/sse"),
   ("ai.models", "http://04_ai_models_mcp:8004/sse"),
   ("vector", "http://05_vector_db_mcp:8005/sse")]

/-- The POST URL computation of `call_tool` (mcp_host.py lines 51-66):
a special case sends the namespace "os.linux" to a `direct_tool_call`
endpoint; every other namespace gets the `/sse` suffix of its configured
URL rewritten to `/messages/`, or `/messages/` appended if the URL does
not end in `/sse`. -/
def postUrl (service_namespace target_url_from_config : String) : String :=
  if service_namespace = "os.linux" then
    pyRstrip (pyReplace target_url_from_config "/sse" "") '/' ++ "/direct_tool_call"
  else if pyEndsWith target_url_from_config "/sse" then
    pyReplace target_url_from_config "/sse" "/messages/"
  else
    pyRstrip target_url_from_config '/' ++ "/messages/"

/-- A definition of the non-special branches of `postUrl` alone: the target
address as a function of the registered endpoint URL only.  Used to state
which part of the address computation is independent of the namespace. -/
def messagesUrl (target_url_from_config : String) : String :=
  if pyEndsWith target_url_from_config "/sse" then
    pyReplace target_url_from_config "/sse" "/messages/"
  else
    pyRstrip target_url_from_config '/' ++ "/messages/"

/-- The inner MCP PDU (the Envelope) that `call_tool` constructs: the
`mcp_version`, `type` and `tool_name` fields are fixed by the code, `id` is
a fresh `uuid.uuid4()` string, `parameters` is the given parameter dict or
the empty dict, and `context` holds the correlation id when one is truthy. -/
structure McpPdu where
  mcp_version : String
  id : String
  type : String
  tool_name : String
  parameters : JObj
  context : JObj
deriving DecidableEq, Repr

/-- The HTTP POST that `call_tool` issues.  On the wire the PDU is wrapped
into the JSON-RPC 2.0 shape with fields `jsonrpc = "2.0"`,
`method = "tools/call"`, `params = pdu` and a second fresh id
`json_rpc_id`; the headers are constant. -/
structure HttpRequest where
  post_url : String
  pdu : McpPdu
  json_rpc_id : String
deriving DecidableEq, Repr

/-- One constructor per `return` site of `call_tool`:
* `success`           - the `tool_result` branch, status `"success"`, with
                        `result` and `id` read from the MCP response
                        (JSON null when absent);
* `toolError`         - the `tool_error` branch: the message read from the
                        error object (or the fixed fallback text), the raw
                        error object as `details`, and the response id;
* `unexpectedType`    - the final `else` branch: fixed message, with
                        `details` set to the RAW response body
                        `result_data` (not the unwrapped `mcp_response`)
                        and `id` read from the raw body;
* `namespaceNotConfigured` - the guard at the top of `call_tool`: the
                        namespace is not a key of `SERVICES`;
* `httpError`         - the `except httpx.HTTPStatusError` clause: message
                        "HTTP error: <status code>" plus the upstream body
                        as `details` (its JSON if it parses, else a dict
                        with the raw text under `error_message`);
* `requestError`      - the `except httpx.RequestError` clause: message
                        "Request error: <str(e)>" and nothing else.  In
                        the httpx class hierarchy both `ConnectError` and
                        `TimeoutException` are subclasses of
                        `RequestError`, so connection failures and
                        timeouts both land here;
* `unexpectedError`   - the final `except Exception` clause, for any other
                        exception raised during the call;
* `procCrash`         - also the final `except Exception` clause, reached
                        when response processing itself raises because a
                        value that the code calls `.get` on (or indexes)
                        is not a dict; the offending value is recorded in
                        place of the runtime-dependent exception text;
* `malformedStep`     - not a `call_tool` result: the error dict that
                        `WorkflowEngine.execute_workflow` synthesizes at
                        line 167 for a step lacking `service` or `tool`,
                        carrying only `status = "error"` and a message. -/
inductive ToolResult where
  | success (result : JVal) (id : JVal)
  | toolError (message : JVal) (details : JVal) (id : JVal)
  | unexpectedType (details : JVal) (id : JVal)
  | namespaceNotConfigured (ns : String)
  | httpError (code : Nat) (details : JVal)
  | requestError (msg : String)
  | unexpectedError (msg : String)
  | procCrash (culprit : JVal)
  | malformedStep (msg : String)
deriving DecidableEq, Repr

/-- Python `step_result.get("status") == "error"`: true for every result
dict the code builds except the success one. -/
def ToolResult.isError : ToolResult → Bool
  | .success _ _ => false
  | _ => true

/-- The response dispatch of `call_tool` (lines 117-122) on the unwrapped
`mcp_response`, with `rdFields` the fields of the raw `result_data` body
(used by the final `else` branch only).  A non-dict `mcp_response` makes
Python raise `AttributeError` at `.get`, which the `except Exception`
clause converts into an error result: `procCrash`.  The same happens in
the `tool_error` branch when the value under `error` is present but not a
dict, since `.get("error", {}).get("message", ...)` then calls `.get` on a
non-dict. -/
def processMcp (mcp_response : JVal) (rdFields : JObj) : ToolResult :=
  match mcp_response with
  | .obj fields =>
    if jLookup fields "type" = some (.s "tool_result") then
      .success (jGetD fields "result") (jGetD fields "id")
    else if jLookup fields "type" = some (.s "tool_error") then
      match (jLookup fields "error").getD (.obj .nil) with
      | .obj errFields =>
        .toolError
          ((jLookup errFields "message").getD
            (.s "Unknown tool error from downstream service"))
          (jGetD fields "error") (jGetD fields "id")
      | bad => .procCrash bad
    else
      .unexpectedType (.obj rdFields) (jGetD rdFields "id")
  | other => .procCrash other

/-- The response unwrapping of `call_tool` (lines 103-115): if the parsed
body has both a `jsonrpc` and a `result` key it is treated as a JSON-RPC
wrapper and the value under `result` is the MCP response; otherwise the
body itself is.  A non-dict body makes every subsequent membership test or
`.get` raise, which the `except Exception` clause converts to an error
result: `procCrash`. -/
def processResponse (result_data : JVal) : ToolResult :=
  match result_data with
  | .obj rdFields =>
    if jHasKey rdFields "jsonrpc" && jHasKey rdFields "result" then
      processMcp (jGetD rdFields "result") rdFields
    else
      processMcp result_data rdFields
  | other => .procCrash other

/-- What the `await self.http_client.post(...)`, `raise_for_status()` and
`response.json()` sequence can do, from the point of view of the caller:
* `ok`            - 2xx response whose body parsed as JSON;
* `httpStatusExc` - `raise_for_status` raised `httpx.HTTPStatusError`;
  `bodyJson` is the body parsed as JSON when it parses, else `none`
  (Python then catches `json.JSONDecodeError` and keeps the raw text);
* `timeoutExc`    - the request timed out: `httpx.TimeoutException`,
  a subclass of `httpx.RequestError`, with message `str(e)`;
* `connectExc`    - the request failed to reach the peer: a
  non-timeout `httpx.RequestError` such as `ConnectError`;
* `otherExc`      - any other exception, e.g. `json.JSONDecodeError`
  from a 2xx body that is not JSON. -/
inductive TransportOutcome where
  | ok (body : JVal)
  | httpStatusExc (code : Nat) (text : String) (bodyJson : Option JVal)
  | timeoutExc (msg : String)
  | connectExc (msg : String)
  | otherExc (msg : String)
deriving DecidableEq, Repr

/-- The `try`/`except` ladder of `call_tool` (lines 99-140).  The clause
order of the source is `HTTPStatusError`, then `RequestError`, then
`Exception`; `timeoutExc` and `connectExc` are both instances of
`httpx.RequestError` and are handled by one and the same clause. -/
def handleOutcome : TransportOutcome → ToolResult
  | .ok body => processResponse body
  | .httpStatusExc code text bodyJson =>
    .httpError code (bodyJson.getD (.obj (.cons "error_message" (.s text) .nil)))
  | .timeoutExc msg => .requestError msg
  | .connectExc msg => .requestError msg
  | .otherExc msg => .unexpectedError msg

/-- The `mcp_pdu_context` dict: empty, except that a truthy correlation id
is stored under `correlation_id` (lines 73-75). -/
def pduContext : Option JVal → JObj
  | some c => if jTruthy c then .cons "correlation_id" c .nil else .nil
  | none => .nil

/-- The embedding of `MCPServiceClient.call_tool` (lines 46-140).
Here `transport` stands for the
HTTP client, `pduId` and `rpcId` for the two `uuid.uuid4()` calls.  The
second component lists the POSTs actually issued, so the unknown-namespace
guard returning before any I/O is the statement that this list is empty. -/
def callTool (services : List (String × String))
    (transport : HttpRequest → TransportOutcome) (pduId rpcId : String)
    (service_namespace tool_name : String) (params : Option JObj)
    (correlation_id : Option JVal) : ToolResult × List HttpRequest :=
  match List.lookup service_namespace services with
  | none => (.namespaceNotConfigured service_namespace, [])
  | some target_url_from_config =>
    let pdu : McpPdu :=
      { mcp_version := "2.0"
        id := pduId
        type := "tool_call"
        tool_name := service_namespace ++ "." ++ tool_name
        parameters := params.getD .nil
        context := pduContext correlation_id }
    let req : HttpRequest :=
      { post_url := postUrl service_namespace target_url_from_config
        pdu := pdu
        json_rpc_id := rpcId }
    (handleOutcome (transport req), [req])

/-- One step of a workflow dict.  `step.get` can return any JSON value; the
model covers steps whose `name`, `service` and `tool`, when present, are
strings (the shape the input schema declares) and whose `params`, when
present, is a dict.  `none` models an absent key. -/
structure WorkflowStep where
  name : Option String
  service : Option String
  tool : Option String
  params : Option JObj
deriving DecidableEq, Repr

/-- A workflow dict, as read by `workflow.get` for the keys `name` and
`steps`.  An absent `steps` key behaves as the empty list, so the model
folds it into the list itself. -/
structure Workflow where
  name : Option String
  steps : List WorkflowStep
deriving Repr

/-- One entry of the `results` list of `execute_workflow`. -/
structure StepRecord where
  step_name : String
  description : String
  result : ToolResult
deriving DecidableEq, Repr

/-- The dict `execute_workflow` returns.  The completed return carries no
`step_failed_at` and no `reason` key, modelled by `none`. -/
structure WorkflowResult where
  workflow_name : String
  status : String
  step_failed_at : Option Nat
  reason : Option ToolResult
  results : List StepRecord
  correlation_id : Option JVal
deriving Repr

/-- Python `not x` on an optional string: `None` and the empty string are
falsy (`if not service_from_step or not tool_from_step`). -/
def pyFalsyStr : Option String → Bool
  | none => true
  | some v => v = ""

/-- Python `x or dflt` on an optional string: the default replaces a falsy
value. -/
def pyOrElse (v : Option String) (dflt : String) : String :=
  match v with
  | some x => if x = "" then dflt else x
  | none => dflt

/-- The message of the engine error for a step lacking `service` or `tool`
(line 165), with `i` the zero-based loop index. -/
def malformedStepMsg (workflow_name : String) (i : Nat) (desc : String) :
    String :=
  "Workflow \x27" ++ workflow_name ++ "\x27 step " ++ toString (i + 1) ++
    " (\x27" ++ desc ++ "\x27) is missing \x27service\x27 or \x27tool\x27 key."

/-- The step description: the value under the `name` key when present,
else the text Step followed by the 1-based position, with `i` the
zero-based loop index. -/
def stepDesc (step : WorkflowStep) (i : Nat) : String :=
  step.name.getD ("Step " ++ toString (i + 1))

/-- The loop body of `WorkflowEngine.execute_workflow` (lines 159-188),
made recursive over the remaining steps.  `i` is the loop index, `acc` the
`results` list built so far and `log` the index-tagged POSTs issued so
far.  `transport` and `uuids` give each step its HTTP client behaviour and
its two fresh uuid strings. -/
def execSteps (services : List (String × String))
    (transport : Nat → HttpRequest → TransportOutcome)
    (uuids : Nat → String × String) (workflow_name : String)
    (correlation_id : Option JVal) :
    List WorkflowStep → Nat → List StepRecord → List (Nat × HttpRequest) →
    WorkflowResult × List (Nat × HttpRequest)
  | [], _, acc, log =>
    ({ workflow_name := workflow_name, status := "completed",
       step_failed_at := none, reason := none, results := acc,
       correlation_id := correlation_id }, log)
  | step :: rest, i, acc, log =>
    if pyFalsyStr step.service || pyFalsyStr step.tool then
      let desc := stepDesc step i
      let errRes := ToolResult.malformedStep
        (malformedStepMsg workflow_name i desc)
      let recd : StepRecord :=
        { step_name := pyOrElse step.service "unknown_service" ++ "." ++
            pyOrElse step.tool "unknown_tool"
          description := desc
          result := errRes }
      ({ workflow_name := workflow_name, status := "failed",
         step_failed_at := some (i + 1), reason := some errRes,
         results := acc ++ [recd], correlation_id := correlation_id }, log)
    else
      let sv := step.service.getD ""
      let tv := step.tool.getD ""
      let call := callTool services (transport i) (uuids i).1 (uuids i).2
        sv tv step.params correlation_id
      let recd : StepRecord :=
        { step_name := sv ++ "." ++ tv
          description := stepDesc step i
          result := call.1 }
      let log2 := log ++ call.2.map (fun r => (i, r))
      if call.1.isError then
        ({ workflow_name := workflow_name, status := "failed",
           step_failed_at := some (i + 1), reason := some call.1,
           results := acc ++ [recd], correlation_id := correlation_id },
         log2)
      else
        execSteps services transport uuids workflow_name correlation_id
          rest (i + 1) (acc ++ [recd]) log2

/-- The embedding of `WorkflowEngine.execute_workflow` (lines 152-188). -/
def executeWorkflow (services : List (String × String))
    (transport : Nat → HttpRequest → TransportOutcome)
    (uuids : Nat → String × String) (workflow : Workflow)
    (correlation_id : Option JVal) :
    WorkflowResult × List (Nat × HttpRequest) :=
  execSteps services transport uuids (workflow.name.getD "Unnamed Workflow")
    correlation_id workflow.steps 0 [] []

/-- The tool entry point `execute_workflow_implementation` (lines 196-200):
`correlation_id = context.get("correlation_id") if context else None`.  An
absent or empty (falsy) context dict yields `None`; no correlation id is
ever generated here. -/
def execute_workflow_implementation (services : List (String × String))
    (transport : Nat → HttpRequest → TransportOutcome)
    (uuids : Nat → String × String) (workflow : Workflow)
    (context : Option JObj) :
    WorkflowResult × List (Nat × HttpRequest) :=
  let correlation_id : Option JVal :=
    match context with
    | none => none
    | some .nil => none
    | some ctx => jLookup ctx "correlation_id"
  executeWorkflow services transport uuids workflow correlation_id

/-- Outcome of parsing a probe response body with `response.json()`. -/
inductive JParse where
  | parsed (j : JVal)
  | failed (msg : String)
deriving DecidableEq, Repr

/-- Outcome of one `await client.get(health_check_url)`:
either a response with its status code, body parse and raw text, or a
raised exception (timeout, connection failure, ...) with `str(e)`. -/
inductive ProbeOutcome where
  | responded (status_code : Nat) (body : JParse) (text : String)
  | exc (msg : String)
deriving DecidableEq, Repr

/-- One value of the `downstream_services` dict built by
`check_system_health_implementation` (lines 298-304). -/
inductive HealthEntry where
  | healthy (code : Nat) (details : JVal)
  | unhealthy (code : Nat) (details : String)
  | unreachable (error : String)
deriving DecidableEq, Repr

/-- The `health_check_url` computation (lines 292-293): the `/sse` suffix
removed from the
configured URL, then `/health` appended. -/
def healthCheckUrl (service_sse_url : String) : String :=
  pyReplace service_sse_url "/sse" "" ++ "/health"

/-- The body of the probe loop (lines 296-304): a 200 response with a JSON
body is healthy with the parsed body as details; any other status code is
unhealthy with the raw text as details; an exception is unreachable.  A
200 body that fails to parse makes `response.json()` raise, which the
`except` clause records as unreachable. -/
def classifyProbe : ProbeOutcome → HealthEntry
  | .responded code (.parsed j) text =>
    if code = 200 then .healthy code j else .unhealthy code text
  | .responded code (.failed msg) text =>
    if code = 200 then .unreachable msg else .unhealthy code text
  | .exc msg => .unreachable msg

/-- The full return value of `check_system_health_implementation`. -/
structure HealthStatus where
  orchestrator_status : String
  orchestrator_name : String
  downstream_services : List (String × HealthEntry)
deriving DecidableEq, Repr

/-- The embedding of `check_system_health_implementation` (lines 282-305):
the loop over
`SERVICES` probes each namespace at its health URL and records one entry
per namespace.  `probe` maps the health URL to what the GET did. -/
def check_system_health (probe : String → ProbeOutcome) : HealthStatus :=
  { orchestrator_status := "healthy"
    orchestrator_name := "00_master_mcp"
    downstream_services :=
      SERVICES.map fun p => (p.1, classifyProbe (probe (healthCheckUrl p.2))) }

/-- Start times of the probes under the sequential `for` loop of
`check_system_health_implementation`: each `await client.get` completes
before the next iteration begins, so with `dur` giving each namespace its
probe duration, the probe of a namespace starts only after the durations
of all earlier probes in registry order have elapsed. -/
def probeStartsGo (dur : String → Nat) :
    List (String × String) → Nat → List (String × Nat)
  | [], _ => []
  | (ns, _) :: rest, t => (ns, t) :: probeStartsGo dur rest (t + dur ns)

/-- The start time of each registered probe in the sequential loop. -/
def probeStarts (dur : String → Nat) : List (String × Nat) :=
  probeStartsGo dur SERVICES 0

/-- The namespace resolution `call_tool` actually performs (lines 46-49):
the caller supplies `service_namespace` and `tool_name` already split, and
the namespace is checked by exact membership in `SERVICES`
(`if service_namespace not in SERVICES`); the split is never recomputed
and no prefix of the qualified name is ever considered. -/
def codeResolve (services : List (String × String))
    (service_namespace tool_name : String) : Option (String × String) :=
  match List.lookup service_namespace services with
  | some _ => some (service_namespace, tool_name)
  | none => none

/-- The remaining tool name after a namespace and its trailing dot are
removed from the front of a qualified name. -/
def restAfterNs (qualified ns : String) : String :=
  ⟨dropN (ns.data.length + 1) qualified.data⟩

/-- Modelled from the spec: the Router resolution of a qualified tool name
by longest-registered-prefix matching against the registry, the resolved
namespace being the longest registered namespace that, followed by a dot,
starts the qualified name; the remainder is the tool name.  No code in the
repository implements this; the definition exists to be compared with
`codeResolve` and `callTool`. -/
def specLongestMatch (services : List (String × String))
    (qualified : String) : Option (String × String) :=
  services.foldl
    (fun best p =>
      if isPrefixL (p.1 ++ ".").data qualified.data then
        match best with
        | none => some (p.1, restAfterNs qualified p.1)
        | some b =>
          if b.1.data.length < p.1.data.length then
            some (p.1, restAfterNs qualified p.1)
          else best
      else best)
    none

/-- The result `execute_workflow` would record for a given step at loop
index `i` when the step is dispatched (its `service` and `tool` are
non-falsy): the first component of the `call_tool` call the loop makes. -/
def dispatchResult (services : List (String × String))
    (transport : Nat → HttpRequest → TransportOutcome)
    (uuids : Nat → String × String) (cid : Option JVal) (i : Nat)
    (step : WorkflowStep) : ToolResult :=
  (callTool services (transport i) (uuids i).1 (uuids i).2
    (step.service.getD "") (step.tool.getD "") step.params cid).1

/-- A step at loop index `i` halts the workflow: it is malformed (falsy
`service` or `tool`) or its dispatch returns an error result. -/
def stepBad (services : List (String × String))
    (transport : Nat → HttpRequest → TransportOutcome)
    (uuids : Nat → String × String) (cid : Option JVal) (i : Nat)
    (step : WorkflowStep) : Bool :=
  (pyFalsyStr step.service || pyFalsyStr step.tool) ||
    (dispatchResult services transport uuids cid i step).isError

/-! Concrete fixtures used by the closed counterexample and witness
theorems below. -/

/-- The registry of the claim about prefix matching: two namespaces, one a
dotted multi-segment one. -/
def exampleRegistry : List (String × String) :=
  [("docs", "http://01_documentation_mcp:8001/sse"),
   ("trading.freqtrade.knowledge", "http://15_freqtrade_mcp:8015/sse")]

/-- A downstream Envelope of type `tool_result`. -/
def okFields : JObj :=
  .cons "type" (.s "tool_result")
    (.cons "result" (.s "fine") (.cons "id" (.s "m1") .nil))

/-- The same Envelope as a JSON value. -/
def okEnv : JVal := .obj okFields

/-- An Envelope of unrecognized type with its own id. -/
def bogusEnv : JVal :=
  .obj (.cons "type" (.s "bogus") (.cons "id" (.s "e1") .nil))

/-- The value `bogusEnv` nested as the `result` field of a JSON-RPC
wrapper whose outer id differs from the Envelope id. -/
def bogusWrapped : JVal :=
  .obj (.cons "jsonrpc" (.s "2.0")
    (.cons "result" bogusEnv (.cons "id" (.s "w1") .nil)))

/-- An Envelope that itself carries `jsonrpc` and `result` keys next to a
recognized `type`. -/
def shadowEnv : JVal :=
  .obj (.cons "jsonrpc" (.s "2.0")
    (.cons "result" (.obj .nil)
      (.cons "type" (.s "tool_result") (.cons "id" (.s "e2") .nil))))

/-- The value `shadowEnv` nested as the `result` field of a JSON-RPC
wrapper. -/
def shadowWrapped : JVal :=
  .obj (.cons "jsonrpc" (.s "2.0")
    (.cons "result" shadowEnv (.cons "id" (.s "w2") .nil)))

/-- A transport on which every POST succeeds with the body `okEnv`. -/
def trOk : HttpRequest → TransportOutcome := fun _ => .ok okEnv

/-- A well-formed step calling `docs.search` with an empty parameter
dict. -/
def stepG : WorkflowStep :=
  { name := none, service := some "docs", tool := some "search",
    params := some .nil }

/-- A step with `service` and `tool` but no `params` key. -/
def stepNoParams : WorkflowStep :=
  { name := none, service := some "docs", tool := some "search",
    params := none }

/-- A three-step workflow of well-formed steps. -/
def wf3 : Workflow := { name := some "W", steps := [stepG, stepG, stepG] }

/-- A two-step workflow of well-formed steps. -/
def wf2 : Workflow := { name := some "W2", steps := [stepG, stepG] }

/-- The empty workflow. -/
def wfEmpty : Workflow := { name := some "E", steps := [] }

/-- A per-step transport on which step 0 succeeds and every later step
fails with a connection error. -/
def tr3 : Nat → HttpRequest → TransportOutcome :=
  fun i _ => if i = 0 then .ok okEnv else .connectExc "connection refused"

/-- A per-step transport on which every step succeeds. -/
def trAllOk : Nat → HttpRequest → TransportOutcome := fun _ _ => .ok okEnv

/-- Distinct uuid pairs per step. -/
def uW : Nat → String × String :=
  fun i => (toString i ++ "a", toString i ++ "b")

/-- A caller context carrying a correlation id. -/
def ctxW : JObj := .cons "correlation_id" (.s "abc") .nil

/-- A default index-tagged request, used only to read a concrete element
out of a request log with `List.getD`. -/
def dfltTag : Nat × HttpRequest :=
  (0, { post_url := "", json_rpc_id := ""
        pdu := { mcp_version := "", id := "", type := "", tool_name := "",
                 parameters := .nil, context := .nil } })

/-- Probe durations where the docs probe takes 10 time units and every
other probe takes 1. -/
def durSlow : String → Nat := fun ns => if ns = "docs" then 10 else 1

/-- Probe durations where the docs probe returns instantly and every other
probe takes 1. -/
def durFast : String → Nat := fun ns => if ns = "docs" then 0 else 1

/-- A probe on which the docs health URL times out and every other URL is
healthy. -/
def probeA : String → ProbeOutcome :=
  fun u => if u = healthCheckUrl "http://01_documentation_mcp:8001/sse" then
    .exc "timed out" else .responded 200 (.parsed .null) ""

/-- A probe on which every URL is healthy. -/
def probeB : String → ProbeOutcome :=
  fun _ => .responded 200 (.parsed .null) ""

/-! Helper lemmas shared by several claim theorems. -/

/-- Response processing never produces the unknown-namespace result. -/
theorem processMcp_ne_notConfigured (m : JVal) (rd : JObj) (ns : String) :
    processMcp m rd ≠ ToolResult.namespaceNotConfigured ns := by
  unfold processMcp
  repeat' split
  all_goals simp

/-- Response unwrapping never produces the unknown-namespace result. -/
theorem processResponse_ne_notConfigured (body : JVal) (ns : String) :
    processResponse body ≠ ToolResult.namespaceNotConfigured ns := by
  unfold processResponse
  repeat' split
  all_goals first
    | exact processMcp_ne_notConfigured _ _ _
    | simp

/-- The exception ladder never produces the unknown-namespace result. -/
theorem handleOutcome_ne_notConfigured (o : TransportOutcome) (ns : String) :
    handleOutcome o ≠ ToolResult.namespaceNotConfigured ns := by
  cases o with
  | ok body => exact processResponse_ne_notConfigured body ns
  | httpStatusExc code text bodyJson => simp [handleOutcome]
  | timeoutExc msg => simp [handleOutcome]
  | connectExc msg => simp [handleOutcome]
  | otherExc msg => simp [handleOutcome]

/-! C1 -/

/-- C1 counterexample: with registrations docs and
trading.freqtrade.knowledge, longest-registered-prefix matching resolves
the qualified name trading.freqtrade.knowledge.query to the long namespace,
but `call_tool` receives the split from its caller and only checks exact
membership: a caller split of the very same qualified name at
trading.freqtrade is answered with the unknown-namespace error and no
request, so dispatch does not resolve namespaces by longest-registered-
prefix matching against the registry. -/
theorem c1_longest_match_counterexample :
    specLongestMatch exampleRegistry "trading.freqtrade.knowledge.query" =
      some ("trading.freqtrade.knowledge", "query") ∧
    "trading.freqtrade" ++ "." ++ "knowledge.query" =
      "trading.freqtrade.knowledge.query" ∧
    (callTool exampleRegistry trOk "p" "r" "trading.freqtrade"
      "knowledge.query" none none).1 =
      .namespaceNotConfigured "trading.freqtrade" ∧
    (callTool exampleRegistry trOk "p" "r" "trading.freqtrade"
      "knowledge.query" none none).2 = [] ∧
    specLongestMatch exampleRegistry ("docs" ++ "." ++ "search") =
      some ("docs", "search") := by
  decide

/-- C1 (amended): dispatch receives namespace and tool already split by the
caller and resolves the namespace by exact membership in the registry,
never by prefix matching on the qualified name: `codeResolve` succeeds
exactly on registered namespaces, `call_tool` returns its
unknown-namespace error exactly when the exact lookup fails, and in
particular the example split docs / search resolves against
`exampleRegistry` with no false match against the longer namespace. -/
theorem c1_exact_namespace_resolution :
    (∀ services ns tool, codeResolve services ns tool =
      ((List.lookup ns services).map fun _ => (ns, tool))) ∧
    (∀ services transport pduId rpcId ns tool params cid,
      ((callTool services transport pduId rpcId ns tool params cid).1 =
          ToolResult.namespaceNotConfigured ns ↔
        List.lookup ns services = none)) ∧
    (∀ transport pduId rpcId params cid,
      (callTool exampleRegistry transport pduId rpcId "docs" "search"
        params cid).1 ≠ ToolResult.namespaceNotConfigured "docs") := by
  have h2 : ∀ services transport pduId rpcId ns tool params cid,
      ((callTool services transport pduId rpcId ns tool params cid).1 =
          ToolResult.namespaceNotConfigured ns ↔
        List.lookup ns services = none) := by
    intro services transport pduId rpcId ns tool params cid
    unfold callTool
    cases h : List.lookup ns services with
    | none => simp
    | some url =>
      simp only []
      constructor
      · intro h'
        exact absurd h' (handleOutcome_ne_notConfigured _ _)
      · intro h'
        cases h'
  refine ⟨?_, h2, ?_⟩
  · intro services ns tool
    unfold codeResolve
    cases List.lookup ns services <;> simp
  · intro transport pduId rpcId params cid h'
    have h3 := (h2 exampleRegistry transport pduId rpcId "docs" "search"
      params cid).mp h'
    exact absurd h3 (by decide)

/-- C1 witness: the amended statement at the concrete example split: the
caller-split docs / search resolves with no false match against the longer
registered namespace. -/
theorem c1_exact_namespace_resolution_witness :
    (callTool exampleRegistry trOk "p" "r" "docs" "search" none none).1 ≠
      ToolResult.namespaceNotConfigured "docs" :=
  c1_exact_namespace_resolution.2.2 trOk "p" "r" none none

/-! C6 -/

/-- C6 counterexample: the POST address is not a function of the endpoint
metadata alone; the dispatch code special-cases the namespace os.linux, so
two registrations with identical endpoint URLs get different target
addresses. -/
theorem c6_per_namespace_counterexample :
    postUrl "os.linux" "http://01_documentation_mcp:8001/sse" =
      "http://01_documentation_mcp:8001/direct_tool_call" ∧
    postUrl "docs" "http://01_documentation_mcp:8001/sse" =
      "http://01_documentation_mcp:8001/messages/" ∧
    postUrl "os.linux" "http://01_documentation_mcp:8001/sse" ≠
      postUrl "docs" "http://01_documentation_mcp:8001/sse" := by
  decide

/-- C6 (amended): for every namespace other than os.linux - in particular
for every namespace registered in `SERVICES` - the target POST address is
a function of the registered endpoint URL alone, so two such registrations
with identical endpoint metadata always yield identical target addresses;
the os.linux branch is a per-namespace special case in the dispatch code,
unreachable for the actually registered namespaces. -/
theorem c6_metadata_only_url :
    (∀ ns url, ns ≠ "os.linux" → postUrl ns url = messagesUrl url) ∧
    (∀ ns1 ns2 url, ns1 ≠ "os.linux" → ns2 ≠ "os.linux" →
      postUrl ns1 url = postUrl ns2 url) ∧
    (∀ p ∈ SERVICES, p.1 ≠ "os.linux") := by
  have h1 : ∀ ns url, ns ≠ "os.linux" → postUrl ns url = messagesUrl url := by
    intro ns url h
    unfold postUrl messagesUrl
    rw [if_neg h]
  exact ⟨h1,
    fun ns1 ns2 url ha hb => (h1 ns1 url ha).trans (h1 ns2 url hb).symm,
    by decide⟩

/-- C6 witness: the two registered namespaces docs and cmdb, given the same
endpoint URL, get the same target address. -/
theorem c6_metadata_only_url_witness :
    postUrl "docs" "http://01_documentation_mcp:8001/sse" =
      postUrl "cmdb" "http://01_documentation_mcp:8001/sse" :=
  c6_metadata_only_url.2.1 "docs" "cmdb"
    "http://01_documentation_mcp:8001/sse" (by decide) (by decide)

/-! C7 -/

/-- C7 counterexample: a timed-out call and a call that failed to connect
produce the very same structured error result, so the three Remote fault
conditions do not map to pairwise distinct error kinds. -/
theorem c7_collapsed_kinds_counterexample :
    (callTool SERVICES (fun _ => .timeoutExc "boom") "p" "r" "docs" "t"
      none none).1 =
      (callTool SERVICES (fun _ => .connectExc "boom") "p" "r" "docs" "t"
        none none).1 ∧
    (callTool SERVICES (fun _ => .timeoutExc "boom") "p" "r" "docs" "t"
      none none).1 = .requestError "boom" := by
  decide

/-- C7 (amended): a non-2xx status is surfaced as its own error kind
carrying the upstream status code and body, but a connection failure and a
timeout are both caught by the single except-RequestError clause and
surfaced as the same Request-error kind, distinguished only by the
exception message text; the HTTP-status kind never coincides with the
Request-error kind. -/
theorem c7_error_kinds (code : Nat) (text : String) (bodyJson : Option JVal)
    (msg : String) :
    handleOutcome (.httpStatusExc code text bodyJson) =
      .httpError code
        (bodyJson.getD (.obj (.cons "error_message" (.s text) .nil))) ∧
    handleOutcome (.timeoutExc msg) = .requestError msg ∧
    handleOutcome (.connectExc msg) = .requestError msg ∧
    handleOutcome (.httpStatusExc code text bodyJson) ≠
      handleOutcome (.timeoutExc msg) := by
  refine ⟨rfl, rfl, rfl, ?_⟩
  simp [handleOutcome]

/-- C7 witness: the amended statement at concrete inputs. -/
theorem c7_error_kinds_witness :
    handleOutcome (.timeoutExc "t") = .requestError "t" ∧
    handleOutcome (.connectExc "t") = .requestError "t" :=
  ⟨(c7_error_kinds 500 "x" none "t").2.1,
   (c7_error_kinds 500 "x" none "t").2.2.1⟩

/-! C9 -/

/-- C9: for every tool name whose namespace matches no registration,
`call_tool` returns the unknown-namespace error immediately and the list
of issued POSTs is empty: no Invoker call, no network attempt. -/
theorem c9_unknown_namespace (services : List (String × String))
    (transport : HttpRequest → TransportOutcome) (pduId rpcId ns tool : String)
    (params : Option JObj) (cid : Option JVal)
    (h : List.lookup ns services = none) :
    callTool services transport pduId rpcId ns tool params cid =
      (.namespaceNotConfigured ns, []) := by
  unfold callTool
  rw [h]

/-- C9 witness: dispatching the unregistered namespace nope against the
real registry. -/
theorem c9_unknown_namespace_witness :
    callTool SERVICES trOk "p" "r" "nope" "tool" none none =
      (.namespaceNotConfigured "nope", []) :=
  c9_unknown_namespace SERVICES trOk "p" "r" "nope" "tool" none none
    (by decide)

/-! C8 -/

/-- For a response of recognized type, the branch dispatch never reads the
raw body, so the raw-body argument is irrelevant. -/
theorem processMcp_rd_irrelevant (fields : JObj) (rd1 rd2 : JObj)
    (h : jLookup fields "type" = some (.s "tool_result") ∨
      jLookup fields "type" = some (.s "tool_error")) :
    processMcp (.obj fields) rd1 = processMcp (.obj fields) rd2 := by
  rcases h with h | h <;> simp [processMcp, h]

/-- C8 counterexample: for an Envelope of unrecognized type, decoding the
bare Envelope and decoding the same Envelope nested in a JSON-RPC wrapper
give different results: the unexpected-type branch reports details and id
taken from the raw body `result_data`, so the wrapped shape leaks the
wrapper and its outer id.  An Envelope that itself carries jsonrpc and
result keys is even mistaken for a wrapper when it arrives bare. -/
theorem c8_unwrap_counterexample :
    processResponse bogusEnv = .unexpectedType bogusEnv (.s "e1") ∧
    processResponse bogusWrapped = .unexpectedType bogusWrapped (.s "w1") ∧
    processResponse bogusEnv ≠ processResponse bogusWrapped ∧
    processResponse shadowEnv ≠ processResponse shadowWrapped := by
  decide

/-- C8 (amended): for every Envelope of a recognized type (tool_result or
tool_error) that does not itself carry both a jsonrpc and a result key,
decoding is identical whether the Envelope arrives bare or nested as the
result field of a JSON-RPC wrapper; Envelopes of unrecognized type (and
Envelopes shadowing the wrapper keys) can decode differently in the two
shapes, because the error branch reads the raw body. -/
theorem c8_wrap_parity (fields : JObj) (wid : JVal)
    (h : jLookup fields "type" = some (.s "tool_result") ∨
      jLookup fields "type" = some (.s "tool_error"))
    (h2 : (jHasKey fields "jsonrpc" && jHasKey fields "result") = false) :
    processResponse (.obj fields) =
      processResponse (.obj (.cons "jsonrpc" (.s "2.0")
        (.cons "result" (.obj fields) (.cons "id" wid .nil)))) := by
  have hL : processResponse (.obj fields) = processMcp (.obj fields) fields := by
    unfold processResponse
    simp [h2]
  have hR : processResponse (.obj (.cons "jsonrpc" (.s "2.0")
      (.cons "result" (.obj fields) (.cons "id" wid .nil)))) =
      processMcp (.obj fields)
        (.cons "jsonrpc" (.s "2.0")
          (.cons "result" (.obj fields) (.cons "id" wid .nil))) := rfl
  rw [hL, hR]
  exact processMcp_rd_irrelevant fields _ _ h

/-- C8 witness: the parity at a concrete tool_result Envelope. -/
theorem c8_wrap_parity_witness :
    processResponse (.obj okFields) =
      processResponse (.obj (.cons "jsonrpc" (.s "2.0")
        (.cons "result" (.obj okFields) (.cons "id" (.s "w9") .nil)))) :=
  c8_wrap_parity okFields (.s "w9") (Or.inl (by decide)) (by decide)

/-! C5 -/

/-- Looking a namespace up in the probed map is looking it up in the
registry and probing its URL. -/
theorem lookup_probe_map (probe : String → ProbeOutcome) (ns : String) :
    ∀ (l : List (String × String)),
      List.lookup ns
          (l.map fun p => (p.1, classifyProbe (probe (healthCheckUrl p.2)))) =
        (List.lookup ns l).map
          fun url => classifyProbe (probe (healthCheckUrl url))
  | [] => rfl
  | p :: rest => by
    cases hb : ns == p.1 <;>
      simp [List.lookup, hb, lookup_probe_map probe ns rest]

/-- C5 counterexample: the probes are issued by a strictly sequential loop,
so the probe of cmdb starts only after the probe of docs has finished:
slowing only the docs probe (for example, a 10-unit timeout instead of an
instant return) moves the start of the cmdb probe from 0 to 10.  Probing
is not concurrent and one probe timing out delays another. -/
theorem c5_sequential_delay_counterexample :
    durSlow "cmdb" = durFast "cmdb" ∧
    List.lookup "cmdb" (probeStarts durSlow) = some 10 ∧
    List.lookup "cmdb" (probeStarts durFast) = some 0 := by
  decide

/-- C5 (amended): the probes run sequentially in registry order, so a slow
probe delays the start of every later probe; but no corruption occurs:
the entry recorded for a namespace is a function of that namespace probe
outcome alone, so one probe failing or timing out never changes another
namespace entry. -/
theorem c5_probe_independence (probe1 probe2 : String → ProbeOutcome)
    (ns url : String) (h : List.lookup ns SERVICES = some url)
    (he : probe1 (healthCheckUrl url) = probe2 (healthCheckUrl url)) :
    List.lookup ns (check_system_health probe1).downstream_services =
      List.lookup ns (check_system_health probe2).downstream_services := by
  unfold check_system_health
  rw [lookup_probe_map probe1 ns SERVICES, lookup_probe_map probe2 ns SERVICES,
    h]
  simp [he]

/-- C5 witness: the cmdb entry is the same whether the docs probe times out
or succeeds. -/
theorem c5_probe_independence_witness :
    List.lookup "cmdb" (check_system_health probeA).downstream_services =
      List.lookup "cmdb" (check_system_health probeB).downstream_services :=
  c5_probe_independence probeA probeB "cmdb" "http://02_cmdb_mcp:8002/sse"
    (by decide) (by decide)

/-! Engine lemmas shared by the workflow claims. -/

/-- The engine only ever appends to the request log. -/
theorem execSteps_log_extends (services : List (String × String))
    (transport : Nat → HttpRequest → TransportOutcome)
    (uuids : Nat → String × String) (name : String) (cid : Option JVal) :
    ∀ (steps : List WorkflowStep) (i : Nat) (acc : List StepRecord)
      (log : List (Nat × HttpRequest)),
      ∃ ext, (execSteps services transport uuids name cid steps i acc log).2 =
        log ++ ext := by
  intro steps
  induction steps with
  | nil => intro i acc log; exact ⟨[], by simp [execSteps]⟩
  | cons step rest ih =>
    intro i acc log
    simp only [execSteps]
    split
    · exact ⟨[], by simp⟩
    · split
      · exact ⟨_, rfl⟩
      · obtain ⟨ext, hext⟩ := ih (i + 1) _ _
        exact ⟨_, by rw [hext, List.append_assoc]⟩

/-- The requests `call_tool` issues when the namespace resolves. -/
theorem callTool_requests (services : List (String × String))
    (transport : HttpRequest → TransportOutcome) (pduId rpcId ns tool : String)
    (params : Option JObj) (cid : Option JVal) (url : String)
    (hl : List.lookup ns services = some url) :
    (callTool services transport pduId rpcId ns tool params cid).2 =
      [{ post_url := postUrl ns url
         pdu := { mcp_version := "2.0", id := pduId, type := "tool_call",
                  tool_name := ns ++ "." ++ tool,
                  parameters := params.getD .nil,
                  context := pduContext cid }
         json_rpc_id := rpcId }] := by
  unfold callTool
  rw [hl]

/-- Every request `call_tool` issues carries the context dict built from
the given correlation id. -/
theorem callTool_context (services : List (String × String))
    (transport : HttpRequest → TransportOutcome) (pduId rpcId ns tool : String)
    (params : Option JObj) (cid : Option JVal) :
    ∀ r ∈ (callTool services transport pduId rpcId ns tool params cid).2,
      r.pdu.context = pduContext cid := by
  intro r hr
  revert hr
  unfold callTool
  cases List.lookup ns services with
  | none => intro hr; cases hr
  | some url =>
    intro hr
    simp only [List.mem_singleton] at hr
    subst hr
    rfl

/-- Every request in the engine log carries the context dict built from
the workflow correlation id. -/
theorem execSteps_context (services : List (String × String))
    (transport : Nat → HttpRequest → TransportOutcome)
    (uuids : Nat → String × String) (name : String) (cid : Option JVal) :
    ∀ (steps : List WorkflowStep) (i : Nat) (acc : List StepRecord)
      (log : List (Nat × HttpRequest)),
      (∀ t ∈ log, t.2.pdu.context = pduContext cid) →
      ∀ t ∈ (execSteps services transport uuids name cid steps i acc log).2,
        t.2.pdu.context = pduContext cid := by
  intro steps
  induction steps with
  | nil => intro i acc log hlog; simpa [execSteps] using hlog
  | cons step rest ih =>
    intro i acc log hlog
    simp only [execSteps]
    have hstep : ∀ t ∈ log ++ (callTool services (transport i) (uuids i).1
        (uuids i).2 (step.service.getD "") (step.tool.getD "") step.params
        cid).2.map (fun r => (i, r)), t.2.pdu.context = pduContext cid := by
      intro t ht
      rcases List.mem_append.mp ht with h | h
      · exact hlog t h
      · rcases List.mem_map.mp h with ⟨r, hr, rfl⟩
        exact callTool_context services (transport i) (uuids i).1 (uuids i).2
          (step.service.getD "") (step.tool.getD "") step.params cid r hr
    split
    · exact hlog
    · split
      · exact hstep
      · exact ih (i + 1) _ _ hstep

/-- Characterization of the engine result: starting from an error-free
accumulator whose length is the loop index, the run fails exactly when
some recorded result is an error; on failure the failure position is the
number of recorded results (so nothing after the failing step is
recorded); otherwise the run completes with all steps recorded. -/
theorem execSteps_char (services : List (String × String))
    (transport : Nat → HttpRequest → TransportOutcome)
    (uuids : Nat → String × String) (name : String) (cid : Option JVal) :
    ∀ (steps : List WorkflowStep) (i : Nat) (acc : List StepRecord)
      (log : List (Nat × HttpRequest)),
      (∀ r ∈ acc, r.result.isError = false) → acc.length = i →
      ((execSteps services transport uuids name cid steps i acc log).1.status
          = "failed" ↔
        ∃ r ∈ (execSteps services transport uuids name cid steps i acc
          log).1.results, r.result.isError = true) ∧
      ((execSteps services transport uuids name cid steps i acc log).1.status
          = "failed" →
        (execSteps services transport uuids name cid steps i acc
            log).1.step_failed_at =
          some (execSteps services transport uuids name cid steps i acc
            log).1.results.length) ∧
      ((execSteps services transport uuids name cid steps i acc log).1.status
          ≠ "failed" →
        (execSteps services transport uuids name cid steps i acc
            log).1.status = "completed" ∧
        (execSteps services transport uuids name cid steps i acc
            log).1.results.length = acc.length + steps.length) := by
  intro steps
  induction steps with
  | nil =>
    intro i acc log hacc hlen
    refine ⟨?_, ?_, ?_⟩
    · simp only [execSteps]
      constructor
      · intro h; exact absurd h (by decide)
      · rintro ⟨r, hr, herr⟩
        rw [hacc r hr] at herr
        exact absurd herr (by decide)
    · intro h; exact absurd h (by simp [execSteps])
    · intro _; simp [execSteps]
  | cons step rest ih =>
    intro i acc log hacc hlen
    simp only [execSteps]
    split
    · refine ⟨⟨fun _ => ?_, fun _ => rfl⟩, fun _ => ?_, fun hne => absurd rfl hne⟩
      · exact ⟨_, List.mem_append_right acc (List.mem_singleton.mpr rfl), rfl⟩
      · simp [hlen]
    · split
      · next herr =>
        refine ⟨⟨fun _ => ?_, fun _ => rfl⟩, fun _ => ?_, fun hne => absurd rfl hne⟩
        · exact ⟨_, List.mem_append_right acc (List.mem_singleton.mpr rfl), herr⟩
        · simp [hlen]
      · next hok =>
        have hok' : (callTool services (transport i) (uuids i).1 (uuids i).2
            (step.service.getD "") (step.tool.getD "") step.params
            cid).1.isError = false := by
          revert hok
          cases (callTool services (transport i) (uuids i).1 (uuids i).2
            (step.service.getD "") (step.tool.getD "") step.params
            cid).1.isError <;> simp
        have hih := ih (i + 1)
          (acc ++ [{ step_name := step.service.getD "" ++ "." ++
                       step.tool.getD ""
                     description := stepDesc step i
                     result := (callTool services (transport i) (uuids i).1
                       (uuids i).2 (step.service.getD "") (step.tool.getD "")
                       step.params cid).1 }])
          (log ++ (callTool services (transport i) (uuids i).1 (uuids i).2
            (step.service.getD "") (step.tool.getD "") step.params
            cid).2.map (fun r => (i, r)))
          (by
            intro r hr
            rcases List.mem_append.mp hr with h | h
            · exact hacc r h
            · simp only [List.mem_singleton] at h
              subst h
              simpa using hok')
          (by simp [hlen])
        refine ⟨hih.1, hih.2.1, fun hne => ?_⟩
        obtain ⟨hc, hl⟩ := hih.2.2 hne
        exact ⟨hc, by rw [hl]; simp; omega⟩

/-! C4 -/

/-- C4: for every workflow, the result status is failed exactly when some
recorded step result is an error; on failure the recorded position equals
the number of recorded results, so no step after the failing one appears;
otherwise the status is completed with one record per step (in particular
the empty workflow completes with an empty record list). -/
theorem c4_status_invariant (services : List (String × String))
    (transport : Nat → HttpRequest → TransportOutcome)
    (uuids : Nat → String × String) (wf : Workflow) (cid : Option JVal) :
    ((executeWorkflow services transport uuids wf cid).1.status = "failed" ↔
      ∃ r ∈ (executeWorkflow services transport uuids wf cid).1.results,
        r.result.isError = true) ∧
    ((executeWorkflow services transport uuids wf cid).1.status = "failed" →
      (executeWorkflow services transport uuids wf cid).1.step_failed_at =
        some (executeWorkflow services transport uuids wf
          cid).1.results.length) ∧
    ((executeWorkflow services transport uuids wf cid).1.status ≠ "failed" →
      (executeWorkflow services transport uuids wf cid).1.status =
          "completed" ∧
      (executeWorkflow services transport uuids wf cid).1.results.length =
        wf.steps.length) := by
  unfold executeWorkflow
  have h := execSteps_char services transport uuids
    (wf.name.getD "Unnamed Workflow") cid wf.steps 0 [] []
    (by intro r hr; cases hr) rfl
  exact ⟨h.1, h.2.1, fun hne => by
    obtain ⟨hc, hl⟩ := h.2.2 hne
    exact ⟨hc, by rw [hl]; simp⟩⟩

/-- C4 witness: the empty workflow completes with no records. -/
theorem c4_status_invariant_witness :
    (executeWorkflow SERVICES trAllOk uW wfEmpty none).1.status =
        "completed" ∧
    (executeWorkflow SERVICES trAllOk uW wfEmpty none).1.results.length =
      0 := by
  have h := (c4_status_invariant SERVICES trAllOk uW wfEmpty none).2.2
    (by decide)
  exact ⟨h.1, h.2⟩

/-! C3 -/

/-- C3 counterexample: in a 2-step workflow with no supplied context, both
steps are dispatched and complete, yet neither Envelope context contains
any correlation id at all - the implementation never generates one, it
only forwards what the caller supplied. -/
theorem c3_no_generated_id_counterexample :
    (execute_workflow_implementation SERVICES trAllOk uW wf2 none).1.status =
        "completed" ∧
    (execute_workflow_implementation SERVICES trAllOk uW wf2 none).2.map
        (fun t => t.2.pdu.context) = [JObj.nil, JObj.nil] ∧
    jLookup ((execute_workflow_implementation SERVICES trAllOk uW wf2
        none).2.getD 0 dfltTag).2.pdu.context "correlation_id" = none := by
  decide

/-- C3 (amended): no correlation id is ever generated; when the caller
supplies a truthy correlation id in the context it is propagated unchanged
into the context of every step Envelope, and when the caller supplies
none, every step Envelope context is the empty dict. -/
theorem c3_correlation_propagation (services : List (String × String))
    (transport : Nat → HttpRequest → TransportOutcome)
    (uuids : Nat → String × String) (wf : Workflow) (ctx : JObj) (c : JVal) :
    (jLookup ctx "correlation_id" = some c → jTruthy c = true →
      ∀ t ∈ (execute_workflow_implementation services transport uuids wf
        (some ctx)).2,
        t.2.pdu.context = JObj.cons "correlation_id" c JObj.nil) ∧
    (∀ t ∈ (execute_workflow_implementation services transport uuids wf
        none).2, t.2.pdu.context = JObj.nil) := by
  constructor
  · intro hlook htru t ht
    cases ctx with
    | nil => exact absurd hlook (by simp [jLookup])
    | cons k v rest =>
      simp only [execute_workflow_implementation] at ht
      rw [hlook] at ht
      have hall := execSteps_context services transport uuids
        (wf.name.getD "Unnamed Workflow") (some c) wf.steps 0 [] []
        (by intro t' ht'; cases ht')
      have := hall t (by simpa [executeWorkflow] using ht)
      simpa [pduContext, htru] using this
  · intro t ht
    simp only [execute_workflow_implementation] at ht
    have hall := execSteps_context services transport uuids
      (wf.name.getD "Unnamed Workflow") none wf.steps 0 [] []
      (by intro t' ht'; cases ht')
    have := hall t (by simpa [executeWorkflow] using ht)
    simpa [pduContext] using this

/-- C3 witness: a supplied correlation id appears unchanged in the first
dispatched Envelope. -/
theorem c3_correlation_propagation_witness :
    ((execute_workflow_implementation SERVICES trAllOk uW wf2
        (some ctxW)).2.getD 0 dfltTag).2.pdu.context =
      JObj.cons "correlation_id" (JVal.s "abc") JObj.nil :=
  (c3_correlation_propagation SERVICES trAllOk uW wf2 ctxW (JVal.s "abc")).1
    (by decide) (by decide) _ (by decide)

/-! C10 -/

/-- C10: a step that has non-empty `service` and `tool` but no `params` key
is not treated as malformed - the falsy check looks only at `service` and
`tool` - and it is dispatched: when its namespace is registered, the
engine issues exactly one POST for it whose Envelope carries the empty
parameter dict. -/
theorem c10_params_default (services : List (String × String))
    (transport : Nat → HttpRequest → TransportOutcome)
    (uuids : Nat → String × String) (name : String) (cid : Option JVal)
    (i : Nat) (acc : List StepRecord) (log : List (Nat × HttpRequest))
    (rest : List WorkflowStep) (nm : Option String) (ns tool url : String)
    (hl : List.lookup ns services = some url) (hns : ns ≠ "")
    (htool : tool ≠ "") :
    (pyFalsyStr (some ns) || pyFalsyStr (some tool)) = false ∧
    ∃ ext, (execSteps services transport uuids name cid
        ({ name := nm, service := some ns, tool := some tool,
           params := none } :: rest) i acc log).2 =
      log ++ ((i, { post_url := postUrl ns url
                    pdu := { mcp_version := "2.0", id := (uuids i).1,
                             type := "tool_call",
                             tool_name := ns ++ "." ++ tool,
                             parameters := JObj.nil,
                             context := pduContext cid }
                    json_rpc_id := (uuids i).2 }) :: ext) := by
  have hfal : (pyFalsyStr (some ns) || pyFalsyStr (some tool)) = false := by
    simp [pyFalsyStr, hns, htool]
  refine ⟨hfal, ?_⟩
  have hreq := callTool_requests services (transport i) (uuids i).1
    (uuids i).2 ns tool none cid url hl
  simp only [execSteps, hfal, Bool.false_eq_true, if_false, Option.getD_some]
  simp only [hreq]
  split
  · exact ⟨[], by simp⟩
  · obtain ⟨ext, hext⟩ := execSteps_log_extends services transport uuids
      name cid rest (i + 1) _ _
    exact ⟨ext, by rw [hext, List.append_assoc]; simp⟩

/-- C10 witness: a concrete step with `service` and `tool` but no `params`
key is dispatched, and the issued Envelope carries the empty parameter
dict. -/
theorem c10_params_default_witness :
    ((execSteps SERVICES trAllOk uW "w" none
        ({ name := none, service := some "docs", tool := some "search",
           params := none } :: []) 0 [] []).2.getD 0 dfltTag).2.pdu.parameters
      = JObj.nil := by
  obtain ⟨hfal, ext, hext⟩ := c10_params_default SERVICES trAllOk uW "w"
    none 0 [] [] [] none "docs" "search"
    "http://01_documentation_mcp:8001/sse" (by decide) (by decide) (by decide)
  rw [hext]
  simp [List.getD]

/-! C2 -/

/-- Fail-fast behaviour of the engine loop: if every step before the bad
one neither is malformed nor dispatches to an error, and the bad step is
malformed or dispatches to an error, then the run fails at the bad step,
records exactly the steps up to and including it, and issues no POST for
any later step (and none for the bad step itself when it is malformed). -/
theorem execSteps_fail_fast (services : List (String × String))
    (transport : Nat → HttpRequest → TransportOutcome)
    (uuids : Nat → String × String) (name : String) (cid : Option JVal) :
    ∀ (pre : List WorkflowStep) (step : WorkflowStep)
      (post : List WorkflowStep) (i : Nat) (acc : List StepRecord)
      (log : List (Nat × HttpRequest)),
      (∀ j (hj : j < pre.length),
        stepBad services transport uuids cid (i + j) (pre.get ⟨j, hj⟩) =
          false) →
      stepBad services transport uuids cid (i + pre.length) step = true →
      ((execSteps services transport uuids name cid (pre ++ step :: post) i
        acc log).1.status = "failed") ∧
      ((execSteps services transport uuids name cid (pre ++ step :: post) i
        acc log).1.step_failed_at = some (i + pre.length + 1)) ∧
      ((execSteps services transport uuids name cid (pre ++ step :: post) i
        acc log).1.results.length = acc.length + pre.length + 1) ∧
      (∀ t ∈ (execSteps services transport uuids name cid
          (pre ++ step :: post) i acc log).2,
        t ∈ log ∨ t.1 < i + pre.length + 1) ∧
      ((pyFalsyStr step.service || pyFalsyStr step.tool) = true →
        ∀ t ∈ (execSteps services transport uuids name cid
            (pre ++ step :: post) i acc log).2,
          t ∈ log ∨ t.1 < i + pre.length) := by
  intro pre
  induction pre with
  | nil =>
    intro step post i acc log _ hbad
    unfold stepBad at hbad
    simp only [List.nil_append, List.length_nil, Nat.add_zero] at hbad ⊢
    simp only [execSteps]
    by_cases hm : (pyFalsyStr step.service || pyFalsyStr step.tool) = true
    · rw [if_pos hm]
      refine ⟨rfl, rfl, by simp, ?_, ?_⟩
      · intro t ht; exact Or.inl ht
      · intro _ t ht; exact Or.inl ht
    · have hm' : (pyFalsyStr step.service || pyFalsyStr step.tool) = false := by
        revert hm; cases (pyFalsyStr step.service || pyFalsyStr step.tool) <;>
          simp
      have herr : (dispatchResult services transport uuids cid i
          step).isError = true := by
        rw [hm'] at hbad; simpa using hbad
      unfold dispatchResult at herr
      rw [if_neg hm, if_pos herr]
      refine ⟨rfl, rfl, by simp, ?_, ?_⟩
      · intro t ht
        rcases List.mem_append.mp ht with h | h
        · exact Or.inl h
        · rcases List.mem_map.mp h with ⟨r, _, rfl⟩
          exact Or.inr (by omega)
      · intro hmal; exact absurd hmal hm
  | cons p pre' ih =>
    intro step post i acc log hsafe hbad
    have hp : stepBad services transport uuids cid i p = false :=
      hsafe 0 (by simp)
    unfold stepBad at hp
    have hp1 : (pyFalsyStr p.service || pyFalsyStr p.tool) = false :=
      (Bool.or_eq_false_iff.mp hp).1
    have hp2 : (dispatchResult services transport uuids cid i p).isError =
        false := (Bool.or_eq_false_iff.mp hp).2
    unfold dispatchResult at hp2
    have hsafe' : ∀ j (hj : j < pre'.length),
        stepBad services transport uuids cid (i + 1 + j)
          (pre'.get ⟨j, hj⟩) = false := by
      intro j hj
      have h := hsafe (j + 1) (by simpa using Nat.succ_lt_succ hj)
      rw [(by omega : i + (j + 1) = i + 1 + j)] at h
      exact h
    have hbad' : stepBad services transport uuids cid (i + 1 + pre'.length)
        step = true := by
      rw [List.length_cons] at hbad
      rw [(by omega : i + (pre'.length + 1) = i + 1 + pre'.length)] at hbad
      exact hbad
    simp only [List.cons_append, execSteps]
    rw [if_neg (by rw [hp1]; decide), if_neg (by rw [hp2]; decide)]
    obtain ⟨g1, g2, g3, g4, g5⟩ := ih step post (i + 1)
      (acc ++ [{ step_name := p.service.getD "" ++ "." ++ p.tool.getD ""
                 description := stepDesc p i
                 result := (callTool services (transport i) (uuids i).1
                   (uuids i).2 (p.service.getD "") (p.tool.getD "") p.params
                   cid).1 }])
      (log ++ (callTool services (transport i) (uuids i).1 (uuids i).2
        (p.service.getD "") (p.tool.getD "") p.params cid).2.map
        (fun r => (i, r)))
      hsafe' hbad'
    refine ⟨g1, ?_, ?_, ?_, ?_⟩
    · refine g2.trans ?_; congr 1; simp only [List.length_cons]; omega
    · refine g3.trans ?_
      simp only [List.length_append, List.length_cons, List.length_nil]
      omega
    · intro t ht
      rcases g4 t ht with h | h
      · rcases List.mem_append.mp h with h' | h'
        · exact Or.inl h'
        · rcases List.mem_map.mp h' with ⟨r, _, rfl⟩
          exact Or.inr (by simp only [List.length_cons]; omega)
      · exact Or.inr (by simp only [List.length_cons] at h ⊢; omega)
    · intro hmal t ht
      rcases g5 hmal t ht with h | h
      · rcases List.mem_append.mp h with h' | h'
        · exact Or.inl h'
        · rcases List.mem_map.mp h' with ⟨r, _, rfl⟩
          exact Or.inr (by simp only [List.length_cons]; omega)
      · exact Or.inr (by simp only [List.length_cons] at h ⊢; omega)

/-- C2 counterexample: in a 3-step workflow whose second step (index 1)
fails, the engine does fail fast with two recorded steps and no dispatch
of step 3, but the recorded failure position is the 1-based value 2, not
the 0-based step index 1 the claim states. -/
theorem c2_failed_at_counterexample :
    (executeWorkflow SERVICES tr3 uW wf3 none).1.status = "failed" ∧
    (executeWorkflow SERVICES tr3 uW wf3 none).1.step_failed_at = some 2 ∧
    (executeWorkflow SERVICES tr3 uW wf3 none).1.step_failed_at ≠ some 1 ∧
    (executeWorkflow SERVICES tr3 uW wf3 none).1.results.length = 2 ∧
    (executeWorkflow SERVICES tr3 uW wf3 none).2.map Prod.fst = [0, 1] := by
  decide

/-- C2 (amended): the engine halts at the first step that is malformed or
whose dispatch returns an error: the result has status failed,
`step_failed_at` equal to the 1-based position of that step (its 0-based
index plus one), exactly the steps up to and including it recorded, and no
step after it is ever dispatched; a malformed failing step is itself never
dispatched. -/
theorem c2_fail_fast (services : List (String × String))
    (transport : Nat → HttpRequest → TransportOutcome)
    (uuids : Nat → String × String) (name : Option String) (cid : Option JVal)
    (pre : List WorkflowStep) (step : WorkflowStep)
    (post : List WorkflowStep)
    (hsafe : ∀ j (hj : j < pre.length),
      stepBad services transport uuids cid j (pre.get ⟨j, hj⟩) = false)
    (hbad : stepBad services transport uuids cid pre.length step = true) :
    ((executeWorkflow services transport uuids ⟨name, pre ++ step :: post⟩
      cid).1.status = "failed") ∧
    ((executeWorkflow services transport uuids ⟨name, pre ++ step :: post⟩
      cid).1.step_failed_at = some (pre.length + 1)) ∧
    ((executeWorkflow services transport uuids ⟨name, pre ++ step :: post⟩
      cid).1.results.length = pre.length + 1) ∧
    (∀ t ∈ (executeWorkflow services transport uuids
        ⟨name, pre ++ step :: post⟩ cid).2, t.1 < pre.length + 1) ∧
    ((pyFalsyStr step.service || pyFalsyStr step.tool) = true →
      ∀ t ∈ (executeWorkflow services transport uuids
          ⟨name, pre ++ step :: post⟩ cid).2, t.1 < pre.length) := by
  unfold executeWorkflow
  obtain ⟨g1, g2, g3, g4, g5⟩ := execSteps_fail_fast services transport uuids
    (name.getD "Unnamed Workflow") cid pre step post 0 [] []
    (by intro j hj; rw [Nat.zero_add]; exact hsafe j hj)
    (by rw [Nat.zero_add]; exact hbad)
  refine ⟨g1, ?_, ?_, ?_, ?_⟩
  · refine g2.trans ?_; congr 1; omega
  · refine g3.trans ?_; simp
  · intro t ht
    rcases g4 t ht with h | h
    · cases h
    · omega
  · intro hmal t ht
    rcases g5 hmal t ht with h | h
    · cases h
    · omega

/-- C2 witness: the amended statement at the concrete 3-step workflow whose
second step fails. -/
theorem c2_fail_fast_witness :
    (executeWorkflow SERVICES tr3 uW
      ⟨some "W", [stepG] ++ stepG :: [stepG]⟩ none).1.status = "failed" ∧
    (executeWorkflow SERVICES tr3 uW
      ⟨some "W", [stepG] ++ stepG :: [stepG]⟩ none).1.step_failed_at =
      some 2 := by
  have h := c2_fail_fast SERVICES tr3 uW (some "W") none [stepG] stepG
    [stepG] (by decide) (by decide)
  exact ⟨h.1, h.2.1⟩

end MCPHost
